import Mathlib

/-
Verification of the Process Supervision & Concurrent Network Scanner
subsystem of the S-IDE desktop shell (Rust sources under
apps/desktop/src-tauri/src).  Rust strings are modelled as `List Char`
(exact for the ASCII inputs the parsers are applied to; Rust byte indices
coincide with character indices there); Rust `u16` is modelled as `Nat`;
fallible operations return `Except String`; environment effects (sockets,
spawned processes, subprocess output) are passed in explicitly.
-/

set_option maxRecDepth 10000

/-! ## String primitives (Rust `str` operations over `List Char`) -/

/-- `toL s` is the character list of a string literal. -/
def toL (s : String) : List Char := s.toList

/-- Rust `str::starts_with` on character lists. -/
def strStartsWith : List Char → List Char → Bool
  | _, [] => true
  | [], _ :: _ => false
  | c :: cs, p :: ps => c == p && strStartsWith cs ps

/-- Rust `str::find(pattern)`: index of the first occurrence of `pat`. -/
def strFind : List Char → List Char → Option Nat
  | hay, pat =>
    match hay with
    | [] => if pat == [] then some 0 else none
    | _ :: rest =>
      if strStartsWith hay pat then some 0
      else (strFind rest pat).map (· + 1)

/-- Rust `str::contains(pattern)`. -/
def strContains (hay pat : List Char) : Bool := (strFind hay pat).isSome

/-- Splits a character list at newline characters: returns the first part
and the (possibly empty) list of the remaining parts. -/
def splitParts : List Char → List Char × List (List Char)
  | [] => ([], [])
  | c :: rest =>
    let (l, ls) := splitParts rest
    if c == '\n' then ([], l :: ls) else (c :: l, ls)

/-- Removes one trailing carriage return, if present. -/
def stripTrailingCR (l : List Char) : List Char :=
  if l ≠ [] ∧ l.getLastD ' ' = '\r' then l.dropLast else l

/-- Rust `str::lines()`: split at `\n` (a trailing `\r` of each
newline-terminated part is removed, i.e. `\r\n` endings), and a final
empty segment produced by a trailing line ending is not a line. -/
def rustLines (s : List Char) : List (List Char) :=
  let (l, ls) := splitParts s
  let all := l :: ls
  let lastPart := all.getLastD []
  (all.dropLast.map stripTrailingCR) ++ (if lastPart = [] then [] else [lastPart])

/-- Rust `str::trim()`: strip leading and trailing whitespace. -/
def rustTrim (l : List Char) : List Char :=
  ((l.dropWhile Char.isWhitespace).reverse.dropWhile Char.isWhitespace).reverse

/-! ## scanner.rs : parse_version_from_banner -/

/-- The ordered marker patterns of `parse_version_from_banner`. -/
def versionPatterns : List (List Char) :=
  [toL "Server: ", toL "version ", toL " v", toL "/"]

/-- The body of the pattern branch of `parse_version_from_banner`: after a
marker found at `pos` (of length `patLen`) in `line`, extract the run of
digits/dots that follows, accepting it only if a non-digit, non-dot
character terminates it on the line, it is non-empty, and it contains at
most two dots. -/
def extractVersionAt (line : List Char) (pos patLen : Nat) : Option (List Char) :=
  let remaining := line.drop (pos + patLen)
  match remaining.findIdx? (fun c => !c.isDigit && c != '.') with
  | none => none
  | some e =>
    let version := remaining.take e
    if version.length != 0 && version.countP (· == '.') ≤ 2 then
      some version
    else none

/-- scanner.rs `parse_version_from_banner`: line-by-line marker scan,
then a fallback that returns the full `Server:` header value when the
header line is terminated by a carriage return or newline. -/
def parse_version_from_banner (banner : String) : Option String :=
  let b := banner.toList
  let firstPass :=
    (rustLines b).findSome? (fun line =>
      versionPatterns.findSome? (fun pat =>
        match strFind line pat with
        | none => none
        | some pos => extractVersionAt line pos pat.length))
  match firstPass with
  | some v => some (String.mk v)
  | none =>
    if strContains b (toL "Server:") then
      match strFind b (toL "Server:") with
      | none => none
      | some start =>
        let line := b.drop start
        match strFind line ['\r'] with
        | some e => some (String.mk (rustTrim ((line.drop 7).take (e - 7))))
        | none =>
          match strFind line ['\n'] with
          | some e => some (String.mk (rustTrim ((line.drop 7).take (e - 7))))
          | none => none
    else none

/-! ## scanner.rs : data model -/

/-- scanner.rs `PortStatus`. -/
inductive PortStatus where
  | Open
  | Closed
  | Filtered
deriving DecidableEq

/-- scanner.rs `PortInfo` (port numbers are `u16`, modelled as `Nat`). -/
structure PortInfo where
  port : Nat
  status : PortStatus
  protocol : String
  service : Option String
  version : Option String
deriving DecidableEq

/-- scanner.rs `ServiceInfo`. -/
structure ServiceInfo where
  name : String
  version : Option String
  info : Option String
deriving DecidableEq

/-- scanner.rs `ScanResult`. -/
structure ScanResult where
  host : String
  ports : List PortInfo
  os_guess : Option String
  services : List ServiceInfo
deriving DecidableEq

/-- scanner.rs `ScanOptions` (`timeout` in milliseconds). -/
structure ScanOptions where
  ports : Option (List Nat)
  os_detection : Bool
  version_detection : Bool
  timeout : Nat
  parallelism : Nat

/-- scanner.rs `ScanOptions::default()`. -/
def ScanOptions.default : ScanOptions :=
  { ports := none
    os_detection := false
    version_detection := false
    timeout := 200
    parallelism := 100 }

/-- scanner.rs `COMMON_PORTS`. -/
def COMMON_PORTS : List Nat :=
  [21, 22, 23, 25, 53, 80, 110, 143, 443, 3306, 3389, 5432,
   3000, 3001, 5173, 5174, 8000, 8080, 8787, 9000]

/-- scanner.rs `SERVICE_FINGERPRINTS`. -/
def SERVICE_FINGERPRINTS : List (Nat × String) :=
  [(21, "ftp"), (22, "ssh"), (23, "telnet"), (25, "smtp"), (53, "dns"),
   (80, "http"), (110, "pop3"), (143, "imap"), (443, "https"),
   (3306, "mysql"), (3389, "rdp"), (5432, "postgresql"), (3000, "nodejs"),
   (5173, "vite"), (8000, "http-alt"), (8080, "http-proxy"),
   (8787, "side-ide")]

/-! ## scanner.rs : probing and the batch scan

The network is passed in explicitly: `net host port` is the outcome of
the bounded-time TCP connect of `probe_port`, and `banner host port` is
the bytes (if any) that `detect_service_version`'s banner read obtains
(`none` when the connect or the read times out or errors). -/

/-- Outcome of one bounded-time TCP connect attempt. -/
inductive ConnectOutcome where
  | success
  | refused
  | timeout

/-- Environment of the internal scanning pipeline. -/
structure ScanEnv where
  net : String → Nat → ConnectOutcome
  banner : String → Nat → Option String

/-- scanner.rs `probe_port`: connect succeeds → `Open`, connect refused
(or otherwise errors) → `Closed`, timeout → no result. -/
def probe_port (net : String → Nat → ConnectOutcome) (host : String)
    (port : Nat) : Option PortInfo :=
  match net host port with
  | .success => some ⟨port, .Open, "tcp", none, none⟩
  | .refused => some ⟨port, .Closed, "tcp", none, none⟩
  | .timeout => none

/-- Structural worker for `listChunks`: recursion on a length fuel (each
step consumes at least one element, so the list's length is enough fuel;
the `0` case with a non-empty list is never reached from
`listChunks`). -/
def chunksFuel (n : Nat) : Nat → List α → List (List α)
  | _, [] => []
  | 0, _ :: _ => []
  | fuel + 1, x :: xs => (x :: xs.take (n - 1)) :: chunksFuel n fuel (xs.drop (n - 1))

/-- Rust slice `chunks`, in the regime `n ≥ 1` under which the source
calls it (`scan_host` guards the `n = 0` panic separately). -/
def listChunks (n : Nat) (l : List α) : List (List α) :=
  chunksFuel n l.length l

/-- scanner.rs `detect_os`: heuristic over the open-port list; the host
argument is unused in the source. -/
def detect_os (_host : String) (open_ports : List PortInfo) : Option String :=
  if open_ports.isEmpty then none
  else
    let has_windows_ports :=
      open_ports.any (fun p => p.port == 135 || p.port == 445 || p.port == 3389)
    let has_unix_ports :=
      open_ports.any (fun p => p.port == 22 || p.port == 111)
    if has_windows_ports && !has_unix_ports then some "Windows"
    else if has_unix_ports && !has_windows_ports then some "Unix/Linux"
    else some "Unknown"

/-- scanner.rs `detect_service_version`: connect and read a banner
(abstracted into `env.banner`; the HTTP pre-request only influences what
bytes the read yields).  At least one byte must arrive; the service name
falls back to "unknown", the banner is trimmed into `info`. -/
def detect_service_version (env : ScanEnv) (host : String) (port : PortInfo)
    (_timeout : Nat) : Option ServiceInfo :=
  match env.banner host port.port with
  | none => none
  | some b =>
    if b.toList.length > 0 then
      some ⟨port.service.getD "unknown",
            parse_version_from_banner b,
            some (String.mk (rustTrim b.toList))⟩
    else none

/-- One collection step of `scan_host`'s fan-in loop: `Open` results are
appended to the open list, `Closed` to the closed list, anything else is
dropped. -/
def collectProbe (acc : List PortInfo × List PortInfo) (pi : PortInfo) :
    List PortInfo × List PortInfo :=
  match pi.status with
  | .Open => (acc.1 ++ [pi], acc.2)
  | .Closed => (acc.1, acc.2 ++ [pi])
  | .Filtered => acc

/-- scanner.rs `scan_host`: resolve the port list, probe it in batches of
`parallelism` (each batch's tasks are awaited in spawn order), keep the
`Open` results as the report's ports, then OS-detect and/or fingerprint.
`none` models the panic of `chunks(0)` when `parallelism = 0`; the
source otherwise always returns `Ok(vec![result])`. -/
def scan_host (host : String) (options : ScanOptions) (env : ScanEnv) :
    Option (List ScanResult) :=
  if options.parallelism = 0 then none
  else
    let ports_to_scan := options.ports.getD COMMON_PORTS
    let probed :=
      (listChunks options.parallelism ports_to_scan).flatMap
        (fun chunk => chunk.filterMap (probe_port env.net host))
    let collected := probed.foldl collectProbe ([], [])
    let open_ports := collected.1
    let os_guess :=
      if options.os_detection then detect_os host open_ports else none
    let services :=
      if options.version_detection then
        open_ports.filterMap
          (fun pi => detect_service_version env host pi options.timeout)
      else
        open_ports.filterMap
          (fun pi =>
            (SERVICE_FINGERPRINTS.find? (fun f => f.1 == pi.port)).map
              (fun f => ⟨f.2, none, none⟩))
    some [{ host := host
            ports := open_ports
            os_guess := os_guess
            services := services }]

/-- scanner.rs `scan_localhost`: `scan_host` on 127.0.0.1 with the
requested flags over default timeout/parallelism. -/
def scan_localhost (ports : Option (List Nat)) (os_detection : Bool)
    (version_detection : Bool) (env : ScanEnv) : Option (List ScanResult) :=
  scan_host "127.0.0.1"
    { ScanOptions.default with
        ports := ports
        os_detection := os_detection
        version_detection := version_detection }
    env

/-! ## scanner.rs : nmap delegation and XML parsing -/

/-- scanner.rs `extract_attr`: find `attr="` and take the characters up
to the next double quote. -/
def extract_attr (line attr : List Char) : Option (List Char) :=
  match strFind line (attr ++ ['=', '"']) with
  | none => none
  | some start =>
    let value_start := start + attr.length + 2
    match strFind (line.drop value_start) ['"'] with
    | none => none
    | some e => some ((line.drop value_start).take e)

/-- Rust `str::parse::<u16>()`: an optional leading `+`, then one or
more ASCII digits, value at most 65535. -/
def parseU16 (s : List Char) : Option Nat :=
  let digits := match s with
                | '+' :: rest => rest
                | _ => s
  if digits.isEmpty then none
  else if digits.all Char.isDigit then
    let v := digits.foldl (fun acc c => acc * 10 + (c.toNat - '0'.toNat)) 0
    if v ≤ 65535 then some v else none
  else none

/-- The per-line mutation of `parse_nmap_xml`'s loop: host address, port
element, service element and OS match are each extracted best-effort. -/
def nmapLineStep (result : ScanResult) (line : List Char) : ScanResult :=
  let result :=
    if strContains line (toL "address=") && strContains line (toL "addr=") then
      match strFind line (toL "addr=\"") with
      | some start =>
        let addr_start := start + 6
        match strFind (line.drop addr_start) ['"'] with
        | some e =>
          { result with host := String.mk ((line.drop addr_start).take e) }
        | none => result
      | none => result
    else result
  let result :=
    if strContains line (toL "<port ") then
      match extract_attr line (toL "portid") with
      | some pid =>
        match parseU16 pid with
        | some port_num =>
          let protocol := (extract_attr line (toL "protocol")).getD (toL "tcp")
          let state := (extract_attr line (toL "state")).getD (toL "unknown")
          let status :=
            if state == toL "open" then PortStatus.Open
            else if state == toL "closed" then PortStatus.Closed
            else PortStatus.Filtered
          { result with
              ports := result.ports ++
                [⟨port_num, status, String.mk protocol, none, none⟩] }
        | none => result
      | none => result
    else result
  let result :=
    if strContains line (toL "<service ") then
      let name := (extract_attr line (toL "name")).getD (toL "unknown")
      let version := extract_attr line (toL "version")
      let product := extract_attr line (toL "product")
      { result with
          services := result.services ++
            [⟨String.mk (product.getD name),
              version.map String.mk,
              some (String.mk name)⟩] }
    else result
  if strContains line (toL "<osmatch ") then
    match extract_attr line (toL "name") with
    | some n => { result with os_guess := some (String.mk n) }
    | none => result
  else result

/-- scanner.rs `parse_nmap_xml`: best-effort line scan starting from the
default report; the source unconditionally ends in `Ok(vec![result])`. -/
def parse_nmap_xml (xml : String) : Except String (List ScanResult) :=
  let init : ScanResult := ⟨"unknown", [], none, []⟩
  .ok [(rustLines xml.toList).foldl nmapLineStep init]

/-- scanner.rs `is_nmap_available`: run `nmap --version`; `probe` is
`none` when the command cannot be run at all, otherwise the exit-status
success flag.  `unwrap_or(false)` maps a failed run to `false`. -/
def is_nmap_available (probe : Option Bool) : Bool :=
  probe.getD false

/-- Outcome of running the nmap subprocess to completion: an error
message when the spawn itself fails, otherwise the exit-status success
flag, captured stdout and captured stderr. -/
def NmapRun := Except String (Bool × String × String)

/-- scanner.rs `scan_with_nmap` (argument building is process glue; the
run outcome is passed in): spawn failure and non-zero exit are hard
errors carrying the diagnostic text, success parses stdout. -/
def scan_with_nmap (_host : String) (_ports : Option (List Nat))
    (_os_detection _version_detection : Bool) (run : NmapRun) :
    Except String (List ScanResult) :=
  match run with
  | .error e => .error ("Failed to run nmap: " ++ e)
  | .ok (success, stdout, stderr) =>
    if !success then .error ("nmap scan failed: " ++ stderr)
    else parse_nmap_xml stdout

/-- Which backend an advanced scan ran. -/
inductive ScanBackend where
  | external
  | internal
deriving DecidableEq

/-- commands.rs `scan_local_servers_advanced`: delegate to nmap iff it
was requested and the availability check succeeds, else run the internal
scanner.  The first component records which backend ran; `none` in the
second models the `parallelism = 0` panic of the internal path (never
reached from this entry point, which uses the default options). -/
def scan_local_servers_advanced (ports : Option (List Nat))
    (os_detection version_detection use_nmap : Bool) (probe : Option Bool)
    (run : NmapRun) (env : ScanEnv) :
    ScanBackend × Option (Except String (List ScanResult)) :=
  if use_nmap && is_nmap_available probe then
    (.external,
     some (scan_with_nmap "127.0.0.1" ports os_detection version_detection run))
  else
    (.internal,
     (scan_localhost ports os_detection version_detection env).map Except.ok)

/-! ## common.rs : port validation -/

/-- common.rs `MIN_PORT`. -/
def MIN_PORT : Nat := 1024

/-- common.rs `validate_port`: ports below 1024 (the `port = 0` check is
unreachable after the first) are rejected with a message naming the
range. -/
def validate_port (port : Nat) : Except String Unit :=
  if port < MIN_PORT then
    .error ("Port " ++ toString port ++ " is below " ++ toString MIN_PORT ++
            ". Use a port between " ++ toString MIN_PORT ++ " and 65535.")
  else if port = 0 then
    .error "Port 0 is not valid"
  else
    .ok ()

/-! ## server.rs / tunnel.rs : managed process handles

A child process records whether a kill has been issued to it
(`Child::start_kill` in the `Drop` impls, `Child::kill` in the stop
paths both issue one).  Spawning itself (npm/node/npx discovery,
`Command::spawn`, stdout capture) is process glue whose outcome is
passed in as an `Except String` handle. -/

/-- The supervised OS child process. -/
structure ChildProc where
  killIssued : Bool
deriving DecidableEq

/-- tokio `Child::start_kill`: issue a non-blocking kill signal. -/
def ChildProc.start_kill (c : ChildProc) : ChildProc :=
  { c with killIssued := true }

/-- tokio `Child::kill`: issue a kill signal and wait. -/
def ChildProc.killSignal (c : ChildProc) : ChildProc :=
  { c with killIssued := true }

/-- server.rs `ServerHandle`. -/
structure ServerHandle where
  child : ChildProc
  port : Nat
deriving DecidableEq

/-- server.rs `impl Drop for ServerHandle`: best-effort `start_kill` on
the child when the handle is destroyed. -/
def ServerHandle.dropHandle (h : ServerHandle) : ServerHandle :=
  { h with child := h.child.start_kill }

/-- tunnel.rs `TunnelHandle`: the url/password cells hold the values the
background stdout-reader task has captured so far. -/
structure TunnelHandle where
  child : ChildProc
  url : Option String
  password : Option String
deriving DecidableEq

/-- tunnel.rs `impl Drop for TunnelHandle`: best-effort `start_kill` on
the child when the handle is destroyed. -/
def TunnelHandle.dropHandle (h : TunnelHandle) : TunnelHandle :=
  { h with child := h.child.start_kill }

/-- server.rs `start`: validate the port, then spawn (dev or production
path, outcome passed in). -/
def server_start (port : Nat) (spawn : Except String ServerHandle) :
    Except String ServerHandle :=
  match validate_port port with
  | .error e => .error e
  | .ok _ => spawn

/-- server.rs `stop`: kill-and-wait on the child; `killErr` is the error
of the kill when it fails.  The handle, taken by value, is dropped when
the function returns. -/
def server_stop (h : ServerHandle) (killErr : Option String) :
    ServerHandle × Except String Unit :=
  match killErr with
  | some e => (h.dropHandle, .error ("Failed to stop server: " ++ e))
  | none => ((ServerHandle.dropHandle { h with child := h.child.killSignal }),
             .ok ())

/-- tunnel.rs `start`: validate the port, then npx lookup + spawn +
stdout capture (outcome passed in). -/
def tunnel_start (port : Nat) (spawn : Except String TunnelHandle) :
    Except String TunnelHandle :=
  match validate_port port with
  | .error e => .error e
  | .ok _ => spawn

/-- tunnel.rs `stop`: kill-and-wait on the child, then the handle is
dropped. -/
def tunnel_stop (h : TunnelHandle) (killErr : Option String) :
    TunnelHandle × Except String Unit :=
  match killErr with
  | some e => (h.dropHandle, .error ("Failed to stop tunnel: " ++ e))
  | none => ((TunnelHandle.dropHandle { h with child := h.child.killSignal }),
             .ok ())

/-- tunnel.rs `get_url`: snapshot of the url cell. -/
def get_url (h : TunnelHandle) : Option String := h.url

/-- How a live handle ceases to be reachable: through the explicit stop
path, or by being dropped without stop having been called. -/
inductive Destruction where
  | explicitStop
  | scopeDrop

/-- The child-process state after a `ServerHandle` is destroyed along
either path (server.rs `stop` / `Drop`). -/
def destroy_server_handle (d : Destruction) (h : ServerHandle)
    (killErr : Option String) : ServerHandle :=
  match d with
  | .explicitStop => (server_stop h killErr).1
  | .scopeDrop => h.dropHandle

/-- The child-process state after a `TunnelHandle` is destroyed along
either path (tunnel.rs `stop` / `Drop`). -/
def destroy_tunnel_handle (d : Destruction) (h : TunnelHandle)
    (killErr : Option String) : TunnelHandle :=
  match d with
  | .explicitStop => (tunnel_stop h killErr).1
  | .scopeDrop => h.dropHandle

/-! ## commands.rs : supervisor commands

`ServerState`/`TunnelState` are async-mutex-guarded `Option` slots; each
command is modelled as a function from the slot value (and the outcomes
of its external effects) to the new slot value and the command result. -/

/-- Outcome of `TcpListener::bind("127.0.0.1:{port}")` in
`start_server`'s availability check. -/
inductive BindOutcome where
  | ok
  | addrInUse
  | otherErr (msg : String)

/-- External-effect outcomes consumed by `start_server`. -/
structure ServerEnv where
  bind : BindOutcome
  spawn : Except String ServerHandle

/-- commands.rs `start_server`: validate, reject an occupied slot, treat
an address-in-use bind failure as an externally running server (slot
left empty), otherwise spawn and store the handle. -/
def start_server (slot : Option ServerHandle) (port : Nat)
    (env : ServerEnv) : Option ServerHandle × Except String String :=
  match validate_port port with
  | .error e => (slot, .error e)
  | .ok _ =>
    if slot.isSome then (slot, .error "Server is already running")
    else
      match env.bind with
      | .addrInUse =>
        (slot, .ok ("Server already running on port " ++ toString port))
      | .otherErr e => (slot, .error ("Cannot check port: " ++ e))
      | .ok =>
        match server_start port env.spawn with
        | .error e => (slot, .error e)
        | .ok h => (some h, .ok ("Server started on port " ++ toString port))

/-- commands.rs `stop_server`: take the handle out of the slot (the slot
is empty from then on), then kill-and-wait; an empty slot is the
"not running" state-conflict error. -/
def stop_server (slot : Option ServerHandle) (killErr : Option String) :
    Option ServerHandle × Except String String :=
  match slot with
  | some h =>
    match (server_stop h killErr).2 with
    | .error e => (none, .error e)
    | .ok _ => (none, .ok "Server stopped")
  | none => (none, .error "Server is not running")

/-- commands.rs `start_tunnel`: validate, reject an occupied slot, spawn,
store the handle, and only then report the URL snapshot — the handle
stays stored even when the URL is not yet available. -/
def start_tunnel (slot : Option TunnelHandle) (port : Nat)
    (spawn : Except String TunnelHandle) :
    Option TunnelHandle × Except String String :=
  match validate_port port with
  | .error e => (slot, .error e)
  | .ok _ =>
    if slot.isSome then (slot, .error "Tunnel is already running")
    else
      match tunnel_start port spawn with
      | .error e => (slot, .error e)
      | .ok h =>
        match get_url h with
        | some u => (some h, .ok u)
        | none => (some h, .error "Tunnel started but URL not available")

/-- commands.rs `stop_tunnel`: take the handle out of the slot, then
kill-and-wait; an empty slot is the "not running" state-conflict
error. -/
def stop_tunnel (slot : Option TunnelHandle) (killErr : Option String) :
    Option TunnelHandle × Except String String :=
  match slot with
  | some h =>
    match (tunnel_stop h killErr).2 with
    | .error e => (none, .error e)
    | .ok _ => (none, .ok "Tunnel stopped")
  | none => (none, .error "Tunnel is not running")

/-- commands.rs `PortStatus` (the availability record returned by
`check_port`; distinct from the scanner's port state). -/
structure PortStatusRecord where
  port : Nat
  available : Bool
  in_use : Bool
deriving DecidableEq

/-- commands.rs `check_port`: validate, then bind to decide
availability (`bindOk` is the outcome of the bind attempt). -/
def check_port (port : Nat) (bindOk : Bool) :
    Except String PortStatusRecord :=
  match validate_port port with
  | .error e => .error e
  | .ok _ => .ok ⟨port, bindOk, !bindOk⟩

/-! ## Sample concrete values used to exercise the theorems -/

/-- A concrete spawned server handle. -/
def sampleServerHandle : ServerHandle := ⟨⟨false⟩, 8787⟩

/-- A server environment whose bind check succeeds and whose spawn
yields `sampleServerHandle`. -/
def sampleServerEnv : ServerEnv := ⟨BindOutcome.ok, .ok sampleServerHandle⟩

/-- A server environment whose bind check fails with address-in-use. -/
def sampleAddrInUseEnv : ServerEnv := ⟨BindOutcome.addrInUse, .error "unused"⟩

/-- A concrete spawned tunnel handle whose URL has not been captured. -/
def sampleTunnelHandle : TunnelHandle := ⟨⟨false⟩, none, none⟩

/-- A scan environment in which every connect succeeds and no banner
arrives. -/
def sampleScanEnv : ScanEnv := ⟨fun _ _ => .success, fun _ _ => none⟩

/-- Scan options probing ports 22 and 80 one at a time. -/
def sampleScanOptions : ScanOptions :=
  { ports := some [22, 80]
    os_detection := false
    version_detection := false
    timeout := 200
    parallelism := 1 }

/-- The report `scan_host` produces for `sampleScanOptions` under
`sampleScanEnv`. -/
def sampleScanReport : List ScanResult :=
  [{ host := "h"
     ports := [⟨22, .Open, "tcp", none, none⟩, ⟨80, .Open, "tcp", none, none⟩]
     os_guess := none
     services := [⟨"ssh", none, none⟩, ⟨"http", none, none⟩] }]

/-! ## Helper lemmas -/

/-- A port of at least 1024 passes validation. -/
theorem validate_port_of_ge (port : Nat) (h : 1024 ≤ port) :
    validate_port port = .ok () := by
  unfold validate_port MIN_PORT
  rw [if_neg (by omega), if_neg (by omega)]

/-- A port below 1024 is rejected by validation. -/
theorem validate_port_of_lt (port : Nat) (h : port < 1024) :
    ∃ e, validate_port port = .error e := by
  unfold validate_port MIN_PORT
  rw [if_pos (by omega)]
  exact ⟨_, rfl⟩

/-- The fan-in fold of `scan_host` only ever adds `Open` results to the
open list. -/
theorem collectProbe_all_open (l : List PortInfo)
    (acc : List PortInfo × List PortInfo)
    (hacc : ∀ x ∈ acc.1, x.status = PortStatus.Open) :
    ∀ x ∈ (l.foldl collectProbe acc).1, x.status = PortStatus.Open := by
  induction l generalizing acc with
  | nil => exact hacc
  | cons pi rest ih =>
    intro x hx
    refine ih (collectProbe acc pi) ?_ x hx
    intro y hy
    cases hst : pi.status <;> simp [collectProbe, hst] at hy
    · rcases hy with hy | hy
      · exact hacc y hy
      · rw [hy]; exact hst
    · exact hacc y hy
    · exact hacc y hy

/-- Membership form of the Windows-associated port check of
`detect_os`. -/
theorem detect_os_any_windows (l : List PortInfo) :
    (l.any (fun p => p.port == 135 || p.port == 445 || p.port == 3389) = true)
      ↔ ∃ p ∈ l, p.port = 135 ∨ p.port = 445 ∨ p.port = 3389 := by
  simp [List.any_eq_true, or_assoc]

/-- Membership form of the Unix-associated port check of `detect_os`. -/
theorem detect_os_any_unix (l : List PortInfo) :
    (l.any (fun p => p.port == 22 || p.port == 111) = true)
      ↔ ∃ p ∈ l, p.port = 22 ∨ p.port = 111 := by
  simp [List.any_eq_true]

/-! ## Claim theorems -/

/-- C1, counterexample: on the exact banner "Server: nginx/1.18.0" the
parser does not return "1.18.0". -/
theorem banner_version_claim_counterexample :
    parse_version_from_banner "Server: nginx/1.18.0" ≠ some "1.18.0" := by
  decide

/-- C1 (amended): on the exact banner "Server: nginx/1.18.0" the parser
returns `none` — the digit/dot run after a marker is accepted only when
a non-digit, non-dot character follows it on the same line, and the
`Server:`-header pass returns a value only when the header line is
terminated by a carriage return or newline; the banner
"no version here" also yields `none`. -/
theorem banner_version_extraction :
    parse_version_from_banner "Server: nginx/1.18.0" = none ∧
    parse_version_from_banner "no version here" = none := by
  constructor <;> decide

/-- C2: destruction of a handle holding a spawned child process — by
explicit stop or by the handle being dropped without stop — issues a
kill to the child, for both the server and the tunnel handle. -/
theorem handle_destruction_issues_kill :
    ∀ (d : Destruction) (hs : ServerHandle) (ht : TunnelHandle)
      (ke kt : Option String),
      (destroy_server_handle d hs ke).child.killIssued = true ∧
      (destroy_tunnel_handle d ht kt).child.killIssued = true := by
  intro d hs ht ke kt
  cases d <;> cases ke <;> cases kt <;>
    simp [destroy_server_handle, destroy_tunnel_handle, server_stop,
          tunnel_stop, ServerHandle.dropHandle, TunnelHandle.dropHandle,
          ChildProc.start_kill, ChildProc.killSignal]

/-- C7: the nmap XML parser succeeds on every input string, and the
empty payload yields a single report with unknown host, no ports, no
services and no OS guess. -/
theorem parse_nmap_xml_never_fails :
    (∀ xml : String, ∃ rs, parse_nmap_xml xml = Except.ok rs) ∧
    parse_nmap_xml "" =
      Except.ok [{ host := "unknown", ports := [], os_guess := none,
                   services := [] }] :=
  ⟨fun _ => ⟨_, rfl⟩, rfl⟩

/-- C3, counterexample: with an occupied slot and port 80, `start_server`
fails with the port-validation error, not with the "already running"
state-conflict error the claim requires for every slot state. -/
theorem start_on_occupied_slot_counterexample :
    (start_server (some sampleServerHandle) 80 sampleServerEnv).2 =
      Except.error "Port 80 is below 1024. Use a port between 1024 and 65535." ∧
    "Port 80 is below 1024. Use a port between 1024 and 65535." ≠
      "Server is already running" :=
  ⟨rfl, by decide⟩

/-- C3 (amended): start on an occupied slot never replaces the existing
handle and always fails — with the "already running" state-conflict
error when the port passes validation, and with the port-validation
error otherwise; stop on an empty slot fails with the "not running"
state-conflict error (and, being total, never panics). -/
theorem supervisor_slot_state_conflicts :
    ∀ (h : ServerHandle) (t : TunnelHandle) (port : Nat) (env : ServerEnv)
      (spawn : Except String TunnelHandle) (ke kt : Option String),
      (start_server (some h) port env).1 = some h ∧
      (start_tunnel (some t) port spawn).1 = some t ∧
      (1024 ≤ port →
        (start_server (some h) port env).2 =
          Except.error "Server is already running" ∧
        (start_tunnel (some t) port spawn).2 =
          Except.error "Tunnel is already running") ∧
      (port < 1024 →
        ∃ e, validate_port port = Except.error e ∧
          (start_server (some h) port env).2 = Except.error e ∧
          (start_tunnel (some t) port spawn).2 = Except.error e) ∧
      stop_server none ke = (none, Except.error "Server is not running") ∧
      stop_tunnel none kt = (none, Except.error "Tunnel is not running") := by
  intro h t port env spawn ke kt
  refine ⟨?_, ?_, ?_, ?_, rfl, rfl⟩
  · cases hv : validate_port port <;> simp [start_server, hv]
  · cases hv : validate_port port <;> simp [start_tunnel, hv]
  · intro hp
    exact ⟨by simp [start_server, validate_port_of_ge port hp],
           by simp [start_tunnel, validate_port_of_ge port hp]⟩
  · intro hp
    obtain ⟨e, he⟩ := validate_port_of_lt port hp
    exact ⟨e, he, by simp [start_server, he], by simp [start_tunnel, he]⟩

/-- C3 witness: at port 8787 both occupied-slot starts report the
state-conflict errors. -/
theorem supervisor_slot_state_conflicts_witness :
    (start_server (some sampleServerHandle) 8787 sampleServerEnv).2 =
      Except.error "Server is already running" ∧
    (start_tunnel (some sampleTunnelHandle) 8787
        (Except.ok sampleTunnelHandle)).2 =
      Except.error "Tunnel is already running" :=
  (supervisor_slot_state_conflicts sampleServerHandle sampleTunnelHandle 8787
      sampleServerEnv (Except.ok sampleTunnelHandle) none none).2.2.1
    (by omega)

/-- C4: every port entry of every report returned by the internal batch
scan has status `Open` — refused probes are collected separately but
not retained, and timed-out probes produce no entry. -/
theorem scan_report_ports_all_open :
    ∀ (host : String) (options : ScanOptions) (env : ScanEnv)
      (rs : List ScanResult),
      scan_host host options env = some rs →
      ∀ r ∈ rs, ∀ pi ∈ r.ports, pi.status = PortStatus.Open := by
  intro host options env rs hscan r hr pi hpi
  unfold scan_host at hscan
  by_cases hp : options.parallelism = 0
  · simp [hp] at hscan
  · rw [if_neg hp] at hscan
    simp only [Option.some.injEq] at hscan
    rw [← hscan] at hr
    simp only [List.mem_singleton] at hr
    rw [hr] at hpi
    exact collectProbe_all_open _ ([], []) (by intro x hx; cases hx) pi hpi

/-- C4 witness: the theorem applied to a concrete two-port scan in which
both probes succeed. -/
theorem scan_report_ports_all_open_witness :
    (⟨22, PortStatus.Open, "tcp", none, none⟩ : PortInfo).status =
      PortStatus.Open :=
  scan_report_ports_all_open "h" sampleScanOptions sampleScanEnv
    sampleScanReport rfl
    { host := "h"
      ports := [⟨22, .Open, "tcp", none, none⟩,
                ⟨80, .Open, "tcp", none, none⟩]
      os_guess := none
      services := [⟨"ssh", none, none⟩, ⟨"http", none, none⟩] }
    (by decide) ⟨22, .Open, "tcp", none, none⟩ (by decide)

/-- C5: the advanced-scan entry point delegates to the external scanner
iff nmap was requested and the availability check succeeds; in every
other case the internal pipeline runs, and either backend hands the
caller a value of the same report shape. -/
theorem advanced_scan_backend_selection :
    ∀ (ports : Option (List Nat)) (osd vd un : Bool) (probe : Option Bool)
      (run : NmapRun) (env : ScanEnv),
      ((scan_local_servers_advanced ports osd vd un probe run env).1 =
          ScanBackend.external
        ↔ (un = true ∧ is_nmap_available probe = true)) ∧
      (scan_local_servers_advanced ports osd vd un probe run env).2.isSome =
        true := by
  intro ports osd vd un probe run env
  by_cases hc : (un && is_nmap_available probe) = true
  · rw [Bool.and_eq_true] at hc
    constructor
    · simp [scan_local_servers_advanced, hc.1, hc.2]
    · simp [scan_local_servers_advanced, hc.1, hc.2]
  · have hc' := hc
    rw [Bool.and_eq_true] at hc'
    constructor
    · simp only [scan_local_servers_advanced, hc, if_false]
      constructor
      · intro hx; cases hx
      · intro hx; exact absurd hx hc'
    · simp [scan_local_servers_advanced, hc, scan_localhost, scan_host,
            ScanOptions.default]

/-- C6: the OS guesser returns `none` iff no port is open; "Windows" iff
a Windows-associated port (135, 445, 3389) is open and no Unix-associated
port (22, 111) is; "Unix/Linux" in the symmetric case; and "Unknown" iff
the list is non-empty and both or neither port set is represented. -/
theorem detect_os_classification :
    ∀ (host : String) (l : List PortInfo),
      (detect_os host l = none ↔ l = []) ∧
      (detect_os host l = some "Windows" ↔
        (∃ p ∈ l, p.port = 135 ∨ p.port = 445 ∨ p.port = 3389) ∧
        ¬ (∃ p ∈ l, p.port = 22 ∨ p.port = 111)) ∧
      (detect_os host l = some "Unix/Linux" ↔
        (∃ p ∈ l, p.port = 22 ∨ p.port = 111) ∧
        ¬ (∃ p ∈ l, p.port = 135 ∨ p.port = 445 ∨ p.port = 3389)) ∧
      (detect_os host l = some "Unknown" ↔
        l ≠ [] ∧
        ((∃ p ∈ l, p.port = 135 ∨ p.port = 445 ∨ p.port = 3389) ↔
         (∃ p ∈ l, p.port = 22 ∨ p.port = 111))) := by
  intro host l
  by_cases hl : l = []
  · subst hl
    refine ⟨by simp [detect_os], ?_, ?_, ?_⟩ <;> simp [detect_os]
  · have hne : l.isEmpty = false := by
      cases l with
      | nil => exact absurd rfl hl
      | cons a as => rfl
    by_cases hW :
        l.any (fun p => p.port == 135 || p.port == 445 || p.port == 3389) = true
    · by_cases hU : l.any (fun p => p.port == 22 || p.port == 111) = true
      · have hdet : detect_os host l = some "Unknown" := by
          simp [detect_os, hne, hW, hU]
        have hw' := (detect_os_any_windows l).mp hW
        have hu' := (detect_os_any_unix l).mp hU
        rw [hdet]
        refine ⟨by simp [hl], ?_, ?_, ?_⟩
        · exact iff_of_false (by simp) (fun hc => hc.2 hu')
        · exact iff_of_false (by simp) (fun hc => hc.2 hw')
        · exact iff_of_true rfl ⟨hl, iff_of_true hw' hu'⟩
      · rw [Bool.not_eq_true] at hU
        have hdet : detect_os host l = some "Windows" := by
          simp [detect_os, hne, hW, hU]
        have hw' := (detect_os_any_windows l).mp hW
        have hu' : ¬ ∃ p ∈ l, p.port = 22 ∨ p.port = 111 := by
          rw [← detect_os_any_unix l, hU]; exact Bool.false_ne_true
        rw [hdet]
        refine ⟨by simp [hl], ?_, ?_, ?_⟩
        · exact iff_of_true rfl ⟨hw', hu'⟩
        · exact iff_of_false (by simp) (fun hc => hu' hc.1)
        · exact iff_of_false (by simp)
            (fun hc => hu' (hc.2.mp hw'))
    · rw [Bool.not_eq_true] at hW
      have hw' : ¬ ∃ p ∈ l, p.port = 135 ∨ p.port = 445 ∨ p.port = 3389 := by
        rw [← detect_os_any_windows l, hW]; exact Bool.false_ne_true
      by_cases hU : l.any (fun p => p.port == 22 || p.port == 111) = true
      · have hdet : detect_os host l = some "Unix/Linux" := by
          simp [detect_os, hne, hW, hU]
        have hu' := (detect_os_any_unix l).mp hU
        rw [hdet]
        refine ⟨by simp [hl], ?_, ?_, ?_⟩
        · exact iff_of_false (by simp) (fun hc => hw' hc.1)
        · exact iff_of_true rfl ⟨hu', hw'⟩
        · exact iff_of_false (by simp)
            (fun hc => hw' (hc.2.mpr hu'))
      · rw [Bool.not_eq_true] at hU
        have hdet : detect_os host l = some "Unknown" := by
          simp [detect_os, hne, hW, hU]
        have hu' : ¬ ∃ p ∈ l, p.port = 22 ∨ p.port = 111 := by
          rw [← detect_os_any_unix l, hU]; exact Bool.false_ne_true
        rw [hdet]
        refine ⟨by simp [hl], ?_, ?_, ?_⟩
        · exact iff_of_false (by simp) (fun hc => hw' hc.1)
        · exact iff_of_false (by simp) (fun hc => hu' hc.1)
        · exact iff_of_true rfl ⟨hl, iff_of_false hw' hu'⟩

/-- C8: when the tunnel spawns but its URL has not been captured at the
moment of the check, `start_tunnel` returns the "URL not available"
error while the handle remains stored in the slot, and a subsequent
`stop_tunnel` on that slot succeeds. -/
theorem start_tunnel_url_unavailable :
    ∀ (h : TunnelHandle) (port : Nat), 1024 ≤ port → h.url = none →
      start_tunnel none port (.ok h) =
        (some h, Except.error "Tunnel started but URL not available") ∧
      stop_tunnel (some h) none = (none, Except.ok "Tunnel stopped") := by
  intro h port hp hurl
  constructor
  · simp [start_tunnel, tunnel_start, validate_port_of_ge port hp,
          get_url, hurl]
  · simp [stop_tunnel, tunnel_stop]

/-- C8 witness: the theorem at port 8787 on a handle with no captured
URL. -/
theorem start_tunnel_url_unavailable_witness :
    start_tunnel none 8787 (.ok sampleTunnelHandle) =
      (some sampleTunnelHandle,
       Except.error "Tunnel started but URL not available") ∧
    stop_tunnel (some sampleTunnelHandle) none =
      (none, Except.ok "Tunnel stopped") :=
  start_tunnel_url_unavailable sampleTunnelHandle 8787 (by omega) rfl

/-- C9: when the slot is empty and the bind check fails with
address-in-use, `start_server` reports success without storing a handle,
and a following `stop_server` fails with "not running". -/
theorem start_server_addr_in_use_semantics :
    ∀ (port : Nat) (env : ServerEnv) (ke : Option String),
      1024 ≤ port → env.bind = BindOutcome.addrInUse →
      start_server none port env =
        (none, Except.ok ("Server already running on port " ++
                          toString port)) ∧
      stop_server none ke = (none, Except.error "Server is not running") := by
  intro port env ke hp hbind
  constructor
  · simp [start_server, validate_port_of_ge port hp, hbind]
  · rfl

/-- C9 witness: the theorem at port 8787 with an address-in-use bind. -/
theorem start_server_addr_in_use_witness :
    start_server none 8787 sampleAddrInUseEnv =
      (none, Except.ok ("Server already running on port " ++
                        toString 8787)) ∧
    stop_server none none = (none, Except.error "Server is not running") :=
  start_server_addr_in_use_semantics 8787 sampleAddrInUseEnv none
    (by omega) rfl

/-- C10: for every port below 1024, `start_server`, `start_tunnel` and
`check_port` return the port-validation error whatever the environment
does, leaving the supervisor slots unchanged; every port in
1024..=65535 passes validation. -/
theorem port_validation_gate :
    ∀ (port : Nat) (s : Option ServerHandle) (t : Option TunnelHandle)
      (env : ServerEnv) (spawn : Except String TunnelHandle) (bindOk : Bool),
      (port < 1024 →
        ∃ e, validate_port port = Except.error e ∧
          start_server s port env = (s, Except.error e) ∧
          start_tunnel t port spawn = (t, Except.error e) ∧
          check_port port bindOk = Except.error e) ∧
      (1024 ≤ port → port ≤ 65535 → validate_port port = Except.ok ()) := by
  intro port s t env spawn bindOk
  constructor
  · intro hp
    obtain ⟨e, he⟩ := validate_port_of_lt port hp
    exact ⟨e, he, by simp [start_server, he], by simp [start_tunnel, he],
           by simp [check_port, he]⟩
  · intro hp _
    exact validate_port_of_ge port hp

/-- C10 witness: port 80 is rejected by all three commands with the
validation error, and port 8787 passes validation. -/
theorem port_validation_gate_witness :
    (∃ e, validate_port 80 = Except.error e ∧
      start_server none 80 sampleServerEnv = (none, Except.error e) ∧
      start_tunnel none 80 (Except.ok sampleTunnelHandle) =
        (none, Except.error e) ∧
      check_port 80 true = Except.error e) ∧
    validate_port 8787 = Except.ok () :=
  ⟨(port_validation_gate 80 none none sampleServerEnv
      (Except.ok sampleTunnelHandle) true).1 (by omega),
   (port_validation_gate 8787 none none sampleServerEnv
      (Except.ok sampleTunnelHandle) true).2 (by omega) (by omega)⟩
